import Mathlib

/-!
Shallow embedding of the PSP-Reconciliation pipeline (backend services:
ingestion webhook handler, normalization service, reconciliation matching
engine, double-entry ledger service) together with theorems checking the
natural-language specification against this embedding.

Conventions of the embedding:
* machine integers and monetary amounts are `Int` (smallest currency unit);
* calendar dates are `Int` day numbers, so that date subtraction yields a
  day difference exactly as Python `(a - b).days` does for `datetime.date`;
* Python `None` becomes `Option`, and code that can raise becomes
  `Except String`;
* SQL result sets are lists in the (unspecified) order the database returns
  rows; `LIMIT 1` / `fetchone` take the head of that order;
* random UUID fields (`uuid4()`) and wall-clock timestamps are not part of
  the modelled records, except where a claim is about them, in which case
  the fresh value is passed explicitly as an argument.
-/

namespace PSP

/-- Canonical event types, from `shared/models/transaction.py` (`EventType`). -/
inductive EventType where
  | DEPOSIT
  | WITHDRAWAL
  | REFUND
  | CHARGEBACK
  | CHARGEBACK_REVERSAL
  | FEE
  | ROLLING_RESERVE
  | PARTIAL_CAPTURE
  | SPLIT_SETTLEMENT
  | NEGATIVE_SETTLEMENT
  | FX_CONVERSION
  deriving DecidableEq, Repr

/-- Exception priorities, from `shared/models/exception.py`. -/
inductive ExceptionPriority where
  | P1
  | P2
  | P3
  | P4
  deriving DecidableEq, Repr

/-- Exception types, from `shared/models/exception.py`. -/
inductive ExceptionType where
  | UNMATCHED
  | PARTIAL_MATCH
  | AMOUNT_MISMATCH
  | DUPLICATE
  | TIMING_MISMATCH
  deriving DecidableEq, Repr

/-- Match statuses, from `shared/models/match.py` (`MatchStatus`): the enum
has exactly these three members.  (`matching_engine.py` line 140 refers to a
member `MatchStatus.UNMATCHED` that the enum does not define; that branch is
embedded as a raised `AttributeError` below.) -/
inductive MatchStatus where
  | MATCHED
  | PARTIAL_MATCH
  | PENDING_REVIEW
  deriving DecidableEq, Repr

/-- The priority ladder of `MatchingEngine._create_exception`
(`matching_engine.py` lines 426-434): `amount >= 1000000` gives P1,
`amount >= 100000` gives P2, `amount >= 10000` gives P3, else P4.
The comparisons are on the stored (signed) `amount_value`. -/
def exceptionPriority (amount : Int) : ExceptionPriority :=
  if 1000000 ≤ amount then ExceptionPriority.P1
  else if 100000 ≤ amount then ExceptionPriority.P2
  else if 10000 ≤ amount then ExceptionPriority.P3
  else ExceptionPriority.P4

/-- Modelled from the spec: priority derived purely from the absolute
transaction amount in smallest units, with the cuts of section 4.3. -/
def specAbsPriority (amount : Int) : ExceptionPriority :=
  if 1000000 ≤ |amount| then ExceptionPriority.P1
  else if 100000 ≤ |amount| then ExceptionPriority.P2
  else if 10000 ≤ |amount| then ExceptionPriority.P3
  else ExceptionPriority.P4

/-- Python `str.upper()` on the ASCII vendor strings in play, implemented
character-wise so that it reduces. -/
def pyUpper (s : String) : String :=
  String.mk (s.data.map Char.toUpper)

/-- Python `str.lower()`, character-wise. -/
def pyLower (s : String) : String :=
  String.mk (s.data.map Char.toLower)

/-- The underscore character (code 95). -/
def underscoreChar : Char := Char.ofNat 95

/-- Python `s.split(sep)[0]`: the prefix of `s` before the first
underscore (the whole string when none occurs). -/
def splitUnderscoreHead (s : String) : String :=
  String.mk (s.data.takeWhile (fun c => !(c == underscoreChar)))

/-- The vendor-event-type mapping of
`NormalizationService._map_event_type` (`normalizer.py` lines 360-370):
a fixed dictionary lookup on the uppercased vendor string with
`EventType.DEPOSIT` as the dictionary-miss default, and SETTLEMENT mapped
to DEPOSIT. -/
def mapEventType (psp_event_type : String) : EventType :=
  let u := pyUpper psp_event_type
  if u = "DEPOSIT" then EventType.DEPOSIT
  else if u = "WITHDRAWAL" then EventType.WITHDRAWAL
  else if u = "REFUND" then EventType.REFUND
  else if u = "CHARGEBACK" then EventType.CHARGEBACK
  else if u = "SETTLEMENT" then EventType.DEPOSIT
  else EventType.DEPOSIT

/-- The call site in `NormalizationService._map_to_canonical`
(`normalizer.py` line 180): the raw field is read with
`event.get(..., an empty default)`, so an absent vendor event type is
normalized as the empty string before mapping. -/
def eventTypeOfRaw (raw_event_type : Option String) : EventType :=
  mapEventType (raw_event_type.getD (""))

/-! ## Matching engine (`services/reconciliation/matching_engine.py`)

The transaction dictionary built by `MatchingEngine._get_transaction` and the
`psp_settlement` rows read by the level queries.  Dates are day numbers,
identifiers are strings (UUIDs are opaque tokens). -/

/-- Row of `normalized_transaction` as loaded by
`MatchingEngine._get_transaction`. -/
structure Txn where
  transaction_id : String
  tenant_id : String
  psp_connection_id : String
  event_type : String
  transaction_date : Int
  amount_value : Int
  amount_currency : String
  psp_transaction_id : String
  psp_payment_id : Option String
  psp_settlement_id : Option String
  psp_batch_id : Option String
  customer_id : Option String
  reconciliation_status : String
  deriving DecidableEq, Repr

/-- Row of `psp_settlement`, from `shared/models/settlement.py`
(`PSPSettlement`), restricted to the columns the matching queries touch. -/
structure Settlement where
  settlement_id : String
  tenant_id : String
  psp_connection_id : String
  settlement_date : Int
  settlement_batch_id : String
  settlement_line_number : Int
  amount_value : Int
  amount_currency : String
  psp_settlement_id : Option String
  psp_transaction_ids : List String
  deriving DecidableEq, Repr

/-- Python truthiness of an optional string: `None` and the empty string are
falsy (the guards `if not transaction.get(...)` in the level queries). -/
def pyTruthy : Option String → Bool
  | none => false
  | some s => !(s == "")

/-- Python `int(q)` on a non-integer number: truncation toward zero,
written on the reduced numerator and denominator so that it computes. -/
def pyIntTrunc (q : ℚ) : Int :=
  if q.num < 0 then -((q.num.natAbs / q.den : Nat) : Int)
  else ((q.num.natAbs / q.den : Nat) : Int)

/-- Python `abs` on an exact rational value. -/
def ratAbs (q : ℚ) : ℚ :=
  if q < 0 then -q else q

/-- Python `max` on two exact rational values. -/
def pyMax (a b : ℚ) : ℚ :=
  if a < b then b else a

/-- A Python value flowing into a binary `-`: either a string column or a
`datetime.date`.  Used to embed `settlement[2] - transaction_date` in
`_match_level_3`. -/
inductive PyVal where
  | str (s : String)
  | date (d : Int)
  deriving DecidableEq, Repr

/-- Python date subtraction `(a - b).days`; subtracting a date from anything
that is not a date raises `TypeError`. -/
def pySubDays : PyVal → PyVal → Except String Int
  | PyVal.date a, PyVal.date b => Except.ok (a - b)
  | _, _ => Except.error ("TypeError: unsupported operand types for subtraction")

/-- The database state seen by one `match_transaction` call: the transaction,
the `psp_settlement` rows in the (unspecified) order the database returns
them, and the ids of settlements that already have a `status = MATCHED`
match row (the `NOT EXISTS` subquery). -/
structure MatchState where
  txn : Txn
  settlements : List Settlement
  matchedSettlementIds : List String
  deriving DecidableEq, Repr

/-- `WHERE` clause of the Level-1 (strong id) query, `matching_engine.py`
lines 156-176.  SQL `NULL = value` is never true, hence the explicit match
on the parameter. -/
def level1Pred (t : Txn) (matched : List String) (s : Settlement) : Bool :=
  s.tenant_id == t.tenant_id &&
  s.psp_connection_id == t.psp_connection_id &&
  (match t.psp_settlement_id with
   | some v => s.psp_settlement_id == some v
   | none => false) &&
  s.settlement_date == t.transaction_date &&
  !(matched.contains s.settlement_id)

/-- Level-2 selection tolerance: `int(transaction.amount_value * 0.01)`
(1% of the transaction amount, truncated; the multiplication is modelled
exactly — binary-float rounding of `* 0.01` is immaterial at the amounts the
theorems use). -/
def level2Tolerance (t : Txn) : Int :=
  pyIntTrunc (mkRat t.amount_value 100)

/-- `WHERE` clause of the Level-2 (PSP reference) query, lines 196-222. -/
def level2Pred (t : Txn) (matched : List String) (s : Settlement) : Bool :=
  s.tenant_id == t.tenant_id &&
  s.psp_connection_id == t.psp_connection_id &&
  (match t.psp_payment_id with
   | some v => s.psp_transaction_ids.contains v
   | none => false) &&
  s.settlement_date == t.transaction_date &&
  s.amount_currency == t.amount_currency &&
  decide (((s.amount_value - t.amount_value).natAbs : Int) ≤ level2Tolerance t) &&
  !(matched.contains s.settlement_id)

/-- Level-3 selection tolerance: `int(transaction.amount_value * 0.001)`
(0.1% of the transaction amount, truncated, modelled exactly). -/
def level3Tolerance (t : Txn) : Int :=
  pyIntTrunc (mkRat t.amount_value 1000)

/-- `WHERE` clause of the Level-3 (fuzzy) query, lines 247-277: date window
±1 day, same currency, 0.1% amount tolerance, unmatched settlement, and —
only when the transaction has a truthy `customer_id` — the settlement must
list that customer among its `psp_transaction_ids`. -/
def level3Pred (t : Txn) (matched : List String) (s : Settlement) : Bool :=
  s.tenant_id == t.tenant_id &&
  s.psp_connection_id == t.psp_connection_id &&
  decide (t.transaction_date - 1 ≤ s.settlement_date) &&
  decide (s.settlement_date ≤ t.transaction_date + 1) &&
  s.amount_currency == t.amount_currency &&
  decide (((s.amount_value - t.amount_value).natAbs : Int) ≤ level3Tolerance t) &&
  !(matched.contains s.settlement_id) &&
  (if pyTruthy t.customer_id then s.psp_transaction_ids.contains (t.customer_id.getD ("")) else true)

/-- `WHERE` clause of the Level-4 (amount + date) query, lines 304-327. -/
def level4Pred (t : Txn) (matched : List String) (s : Settlement) : Bool :=
  s.tenant_id == t.tenant_id &&
  s.psp_connection_id == t.psp_connection_id &&
  s.settlement_date == t.transaction_date &&
  s.amount_currency == t.amount_currency &&
  s.amount_value == t.amount_value &&
  !(matched.contains s.settlement_id)

/-- `fetchone` / `LIMIT 1` over a query with no `ORDER BY`: the first row in
the order the database happens to return, here the list order. -/
def level1Find (st : MatchState) : Option Settlement :=
  if pyTruthy st.txn.psp_settlement_id then
    st.settlements.find? (level1Pred st.txn st.matchedSettlementIds)
  else none

/-- Level-2 candidate lookup (guarded by a truthy `psp_payment_id`). -/
def level2Find (st : MatchState) : Option Settlement :=
  if pyTruthy st.txn.psp_payment_id then
    st.settlements.find? (level2Pred st.txn st.matchedSettlementIds)
  else none

/-- Level-3 candidate lookup. -/
def level3Find (st : MatchState) : Option Settlement :=
  st.settlements.find? (level3Pred st.txn st.matchedSettlementIds)

/-- Level-4 candidate lookup. -/
def level4Find (st : MatchState) : Option Settlement :=
  st.settlements.find? (level4Pred st.txn st.matchedSettlementIds)

/-- `amount_diff_pct` as computed in `_match_level_2` / `_match_level_3`:
`abs(amount_diff / amount * 100)` when the transaction amount is positive,
else `0`.  The division is modelled exactly as the rational
`(amount_diff * 100) / amount`. -/
def amountDiffPct (t : Txn) (settlementAmount : Int) : ℚ :=
  if 0 < t.amount_value then
    ratAbs (mkRat ((t.amount_value - settlementAmount) * 100) t.amount_value.toNat)
  else 0

/-- Deterministic fields of the `ReconciliationMatch` record returned by
`_create_match` (`match_id`, `matched_at` and the tenant/transaction ids are
omitted: the first two are a fresh UUID and the wall clock; the ids merely
copy the transaction). -/
structure MatchRec where
  settlement_id : String
  match_level : Nat
  confidence_score : ℚ
  amount_difference : Option Int
  amount_difference_percent : Option ℚ
  status : MatchStatus
  deriving DecidableEq, Repr

/-- `_create_match`, lines 337-410: the returned record.  The percent field
goes through Python truthiness (`Decimal(str(p)) if p else None`), so a zero
percentage becomes `None`; the status is MATCHED exactly when
`confidence >= 95.0`. -/
def createMatch (sid : String) (level : Nat) (confidence : ℚ)
    (amount_diff : Option Int) (amount_diff_pct : Option ℚ) : MatchRec :=
  { settlement_id := sid
    match_level := level
    confidence_score := confidence
    amount_difference := amount_diff
    amount_difference_percent :=
      match amount_diff_pct with
      | some p => if p = 0 then none else some p
      | none => none
    status := if 95 ≤ confidence then MatchStatus.MATCHED else MatchStatus.PARTIAL_MATCH }

/-- The database side effects of `_create_match`: the transaction's
`reconciliation_status` is set to MATCHED when `confidence >= 95.0` and to
PARTIAL_MATCH otherwise, and the inserted match row blocks future candidates
(via the `NOT EXISTS ... status = MATCHED` filters) exactly when its status
is MATCHED. -/
def applyCreateMatch (st : MatchState) (m : MatchRec) : MatchState :=
  { st with
    txn := { st.txn with
      reconciliation_status :=
        if 95 ≤ m.confidence_score then "MATCHED" else "PARTIAL_MATCH" }
    matchedSettlementIds :=
      if 95 ≤ m.confidence_score then st.matchedSettlementIds ++ [m.settlement_id]
      else st.matchedSettlementIds }

/-- Deterministic fields of the `ReconciliationException` record returned by
`_create_exception` (fresh `exception_id` and timestamps omitted). -/
structure ExcRec where
  settlement_id : Option String
  exception_type : ExceptionType
  exception_reason : String
  amount_value : Int
  amount_currency : String
  priority : ExceptionPriority
  status : String
  deriving DecidableEq, Repr

/-- `_get_exception_reason`, lines 479-492.  (The AMOUNT_MISMATCH text
interpolates the match's `amount_difference_percent`; its rendering is
abstracted by `toString`.) -/
def getExceptionReason (etype : ExceptionType) (m : Option MatchRec) : String :=
  match etype with
  | ExceptionType.UNMATCHED => "No matching settlement found"
  | ExceptionType.PARTIAL_MATCH => "Fuzzy match requires manual review"
  | ExceptionType.AMOUNT_MISMATCH =>
      match m with
      | some mr => "Amount difference: " ++ toString (mr.amount_difference_percent.getD 0) ++ "%"
      | none => "Amount mismatch"
  | ExceptionType.DUPLICATE => "Duplicate transaction detected"
  | ExceptionType.TIMING_MISMATCH => "Transaction date mismatch"

/-- `_create_exception`, lines 412-477: priority from the (signed) amount via
`exceptionPriority`, status OPEN. -/
def createException (t : Txn) (etype : ExceptionType) (m : Option MatchRec) : ExcRec :=
  { settlement_id := m.map MatchRec.settlement_id
    exception_type := etype
    exception_reason := getExceptionReason etype m
    amount_value := t.amount_value
    amount_currency := t.amount_currency
    priority := exceptionPriority t.amount_value
    status := "OPEN" }

/-- The `MatchResult` class of `matching_engine.py` lines 31-43 (the `match`
attribute is renamed `matchRow`; `match` is reserved in Lean). -/
structure MatchResult where
  status : MatchStatus
  confidence : ℚ
  matchRow : Option MatchRec
  exception : Option ExcRec
  deriving DecidableEq, Repr

/-- The Level-2 block of `match_transaction` (lines 90-109) once a candidate
settlement was returned: build the match (committing its side effects), then
branch on `abs(match.amount_difference_percent or 0) < 1.0`. -/
def level2Outcome (st : MatchState) (s : Settlement) : MatchResult × MatchState :=
  let t := st.txn
  let diff := t.amount_value - s.amount_value
  let pct := amountDiffPct t s.amount_value
  let m := createMatch s.settlement_id 2 95 (some diff) (some pct)
  let st2 := applyCreateMatch st m
  if ratAbs (m.amount_difference_percent.getD 0) < 1 then
    ({ status := MatchStatus.MATCHED, confidence := 95, matchRow := some m, exception := none }, st2)
  else
    ({ status := MatchStatus.PARTIAL_MATCH, confidence := 95, matchRow := some m
       exception := some (createException t ExceptionType.AMOUNT_MISMATCH (some m)) }, st2)

/-- The Level-3 block of `_match_level_3` (lines 281-295) once a candidate
settlement was returned.  The query selects
`(settlement_id, amount_value, amount_currency)`, so `settlement[2]` — the
operand of the date subtraction — is the currency string. -/
def level3Outcome (st : MatchState) (s : Settlement) :
    Except String (MatchResult × MatchState) := do
  let t := st.txn
  let diffDays ← pySubDays (PyVal.str s.amount_currency) (PyVal.date t.transaction_date)
  let confidence : ℚ := pyMax 70 (90 - 10 * (diffDays.natAbs : ℚ))
  let diff := t.amount_value - s.amount_value
  let pct := amountDiffPct t s.amount_value
  let m := createMatch s.settlement_id 3 confidence (some diff) (some pct)
  let st2 := applyCreateMatch st m
  return ({ status := MatchStatus.PARTIAL_MATCH, confidence := m.confidence_score
            matchRow := some m
            exception := some (createException t ExceptionType.PARTIAL_MATCH (some m)) }, st2)

/-- The Level-4 block of `match_transaction` (lines 124-133). -/
def level4Outcome (st : MatchState) (s : Settlement) : MatchResult × MatchState :=
  let t := st.txn
  let m := createMatch s.settlement_id 4 60 none none
  let st2 := applyCreateMatch st m
  ({ status := MatchStatus.PENDING_REVIEW, confidence := m.confidence_score
     matchRow := some m
     exception := some (createException t ExceptionType.PARTIAL_MATCH (some m)) }, st2)

/-- `MatchingEngine.match_transaction`, lines 53-144, as one database step.
Already-MATCHED transactions return early with `(MATCHED, 100.0, None)`.
Then the four levels run in order on the first candidate each query returns.
The no-match branch writes an UNMATCHED exception and then evaluates
`MatchStatus.UNMATCHED`, a member the enum does not define, so it raises
`AttributeError`. -/
def matchStep (st : MatchState) : Except String (MatchResult × MatchState) :=
  let t := st.txn
  if t.reconciliation_status = "MATCHED" then
    Except.ok ({ status := MatchStatus.MATCHED, confidence := 100
                 matchRow := none, exception := none }, st)
  else
    match level1Find st with
    | some s =>
        let m := createMatch s.settlement_id 1 100 none none
        Except.ok ({ status := MatchStatus.MATCHED, confidence := 100
                     matchRow := some m, exception := none }, applyCreateMatch st m)
    | none =>
      match level2Find st with
      | some s => Except.ok (level2Outcome st s)
      | none =>
        match level3Find st with
        | some s => level3Outcome st s
        | none =>
          match level4Find st with
          | some s => Except.ok (level4Outcome st s)
          | none =>
              Except.error ("AttributeError: type object MatchStatus has no attribute UNMATCHED")

/-- Modelled from the spec: Level-3 confidence
`max(70, 90 - 10 * abs(date_diff_days))` computed from the settlement date
and the transaction date. -/
def specLevel3Confidence (settlement_date transaction_date : Int) : ℚ :=
  pyMax 70 (90 - 10 * (((settlement_date - transaction_date).natAbs : ℚ)))

/-- Modelled from the spec: the tie-break order on settlement candidates —
smallest absolute amount difference, then smallest absolute date difference,
then smallest `(batch_id, line_no)` lexicographically. -/
def specTieBreakLt (t : Txn) (a b : Settlement) : Bool :=
  decide ((a.amount_value - t.amount_value).natAbs < (b.amount_value - t.amount_value).natAbs) ||
  (decide ((a.amount_value - t.amount_value).natAbs = (b.amount_value - t.amount_value).natAbs) &&
    (decide ((a.settlement_date - t.transaction_date).natAbs < (b.settlement_date - t.transaction_date).natAbs) ||
      (decide ((a.settlement_date - t.transaction_date).natAbs = (b.settlement_date - t.transaction_date).natAbs) &&
        (decide (a.settlement_batch_id < b.settlement_batch_id) ||
          (a.settlement_batch_id == b.settlement_batch_id &&
            decide (a.settlement_line_number < b.settlement_line_number))))))

/-- Modelled from the spec: pick, among the candidates of the winning level,
the minimum for the tie-break order. -/
def specTieBreakPick (t : Txn) (cands : List Settlement) : Option Settlement :=
  cands.foldl
    (fun acc s =>
      match acc with
      | none => some s
      | some b => if specTieBreakLt t s b then some s else some b)
    none

/-- The settlement id chosen by one `match_transaction` call, when it
returned a match. -/
def chosenSettlement (st : MatchState) : Option String :=
  (matchStep st).toOption.bind (fun p => p.1.matchRow.map MatchRec.settlement_id)

/-! ## Ledger service (`services/ledger/ledger_service.py`) -/

/-- Row of `normalized_transaction` as loaded by
`LedgerService._get_transaction` (lines 384-413); `psp_fee` and `net_amount`
are nullable columns. -/
structure LTxn where
  transaction_id : String
  tenant_id : String
  entity_id : String
  psp_connection_id : String
  event_type : String
  transaction_date : Int
  amount_value : Int
  amount_currency : String
  psp_fee : Option Int
  net_amount : Option Int
  psp_transaction_id : String
  deriving DecidableEq, Repr

/-- Row of `reconciliation_match` as loaded by `LedgerService._get_match`
(lines 415-432). -/
structure MatchRow where
  match_id : String
  transaction_id : String
  settlement_id : Option String
  deriving DecidableEq, Repr

/-- The `LedgerEntry` fields written by `LedgerService._create_entry`
(fresh `ledger_entry_id`, `posted_at` and the constant
`posted_by_system = true` omitted). -/
structure LedgerEntry where
  tenant_id : String
  entity_id : String
  transaction_date : Int
  account_debit : String
  account_credit : String
  amount : Int
  currency : String
  reference_transaction_id : String
  reference_match_id : String
  description : String
  deriving DecidableEq, Repr

/-- Chart of accounts codes, `ledger_service.py` lines 20-40. -/
def CASH_STRIPE_USD : String := "1001"

/-- Cash account for Adyen. -/
def CASH_ADYEN_EUR : String := "1002"

/-- Cash account for PayPal. -/
def CASH_PAYPAL_GBP : String := "1003"

/-- Accounts receivable. -/
def ACCOUNTS_RECEIVABLE : String := "1100"

/-- Player balances liability account. -/
def PLAYER_BALANCES : String := "2000"

/-- PSP fees expense account. -/
def PSP_FEES : String := "5000"

/-- Chargeback losses expense account. -/
def CHARGEBACK_LOSSES : String := "5200"

/-- `ChartOfAccounts.get_cash_account` (lines 42-57): the PSP name is the
piece of the connection id before the first underscore, lowercased; unknown
names fall back to the Stripe USD cash account.  The currency argument is
accepted and unused (the code comment defers currency-specific accounts). -/
def getCashAccount (psp_connection_id : String) (currency : String) : String :=
  let psp_name := pyLower (splitUnderscoreHead psp_connection_id)
  if psp_name = "stripe" then CASH_STRIPE_USD
  else if psp_name = "adyen" then CASH_ADYEN_EUR
  else if psp_name = "paypal" then CASH_PAYPAL_GBP
  else CASH_STRIPE_USD

/-- `LedgerService._create_entry` (lines 322-382).  The pydantic model
`LedgerEntry` requires an integer amount, so passing `None` (a NULL
`net_amount` column) raises a validation error. -/
def createEntry (t : LTxn) (debit credit : String) (amount : Option Int)
    (mid : String) (description : String) : Except String LedgerEntry :=
  match amount with
  | some a =>
      Except.ok
        { tenant_id := t.tenant_id, entity_id := t.entity_id
          transaction_date := t.transaction_date
          account_debit := debit, account_credit := credit
          amount := a, currency := t.amount_currency
          reference_transaction_id := t.transaction_id
          reference_match_id := mid, description := description }
  | none => Except.error ("ValidationError: amount is not an integer")

/-- `_post_deposit` (lines 119-171).  The Python line
`net_amount = transaction.get(net_amount_key, amount - psp_fee)` evaluates
the default eagerly, so a NULL `psp_fee` raises `TypeError` there; because
the key is always present in the loaded dict, the stored (possibly NULL)
`net_amount` is what reaches the first entry. -/
def postDeposit (t : LTxn) (mid : String) : Except String (List LedgerEntry) :=
  match t.psp_fee with
  | none => Except.error ("TypeError: unsupported operand types for subtraction")
  | some fee =>
    match createEntry t (getCashAccount t.psp_connection_id t.amount_currency)
        ACCOUNTS_RECEIVABLE t.net_amount mid ("Deposit: " ++ t.psp_transaction_id) with
    | Except.error e => Except.error e
    | Except.ok e1 =>
      if 0 < fee then
        match createEntry t PSP_FEES (getCashAccount t.psp_connection_id t.amount_currency)
            (some fee) mid ("PSP Fee: " ++ t.psp_transaction_id) with
        | Except.error e => Except.error e
        | Except.ok e2 => Except.ok [e1, e2]
      else
        Except.ok [e1]

/-- `_post_withdrawal` (lines 173-204): debit player balances, credit cash. -/
def postWithdrawal (t : LTxn) (mid : String) : Except String (List LedgerEntry) :=
  match createEntry t PLAYER_BALANCES (getCashAccount t.psp_connection_id t.amount_currency)
      (some t.amount_value) mid ("Withdrawal: " ++ t.psp_transaction_id) with
  | Except.error e => Except.error e
  | Except.ok e => Except.ok [e]

/-- `_post_refund` (lines 206-237): debit accounts receivable, credit cash. -/
def postRefund (t : LTxn) (mid : String) : Except String (List LedgerEntry) :=
  match createEntry t ACCOUNTS_RECEIVABLE (getCashAccount t.psp_connection_id t.amount_currency)
      (some t.amount_value) mid ("Refund: " ++ t.psp_transaction_id) with
  | Except.error e => Except.error e
  | Except.ok e => Except.ok [e]

/-- `_post_chargeback` (lines 239-287): chargeback losses against cash plus
the self-reversing accounts-receivable marker entry. -/
def postChargeback (t : LTxn) (mid : String) : Except String (List LedgerEntry) :=
  match createEntry t CHARGEBACK_LOSSES (getCashAccount t.psp_connection_id t.amount_currency)
      (some t.amount_value) mid ("Chargeback: " ++ t.psp_transaction_id) with
  | Except.error e => Except.error e
  | Except.ok e1 =>
    match createEntry t ACCOUNTS_RECEIVABLE ACCOUNTS_RECEIVABLE (some t.amount_value) mid
        ("Chargeback Reversal: " ++ t.psp_transaction_id) with
    | Except.error e => Except.error e
    | Except.ok e2 => Except.ok [e1, e2]

/-- `_post_fee` (lines 289-320): debit PSP fees, credit cash. -/
def postFee (t : LTxn) (mid : String) : Except String (List LedgerEntry) :=
  match createEntry t PSP_FEES (getCashAccount t.psp_connection_id t.amount_currency)
      (some t.amount_value) mid ("Fee: " ++ t.psp_transaction_id) with
  | Except.error e => Except.error e
  | Except.ok e => Except.ok [e]

/-- `LedgerService.post_matched_transaction` (lines 68-117): dispatch on the
event type; unsupported types raise `ValueError`. -/
def postMatchedTransaction (t? : Option LTxn) (m? : Option MatchRow) :
    Except String (List LedgerEntry) :=
  match t?, m? with
  | some t, some m =>
      if t.event_type = "DEPOSIT" then postDeposit t m.match_id
      else if t.event_type = "WITHDRAWAL" then postWithdrawal t m.match_id
      else if t.event_type = "REFUND" then postRefund t m.match_id
      else if t.event_type = "CHARGEBACK" then postChargeback t m.match_id
      else if t.event_type = "FEE" then postFee t m.match_id
      else Except.error ("Unsupported event type for ledger posting: " ++ t.event_type)
  | _, _ => Except.error ("Transaction or match not found")

/-- The commit semantics of `post_matched_transaction`: every entry INSERT
and the `reconciliation_status = POSTED` update run in one session whose
single `commit()` sits after all of them (line 115), so on success the
entries and the POSTED status land together and on any raise the session
closes uncommitted — nothing is written and the previous status stands. -/
def ledgerCommit (t? : Option LTxn) (m? : Option MatchRow) (prevStatus : String) :
    List LedgerEntry × String :=
  match postMatchedTransaction t? m? with
  | Except.ok es => (es, "POSTED")
  | Except.error _ => ([], prevStatus)

/-- The debit legs of a posting group: one `(account, currency, amount)`
triple per entry, taken from the debit side. -/
def debitLegs (es : List LedgerEntry) : List (String × String × Int) :=
  es.map fun e => (e.account_debit, e.currency, e.amount)

/-- The credit legs of a posting group. -/
def creditLegs (es : List LedgerEntry) : List (String × String × Int) :=
  es.map fun e => (e.account_credit, e.currency, e.amount)

/-- Total of the legs carrying a given currency. -/
def legsTotal (ls : List (String × String × Int)) (c : String) : Int :=
  (ls.map (fun l => if l.2.1 == c then l.2.2 else 0)).sum

/-! ## Normalization persistence (`services/normalization/normalizer.py`) -/

/-- Python `x or default` on an optional string (`None` and the empty string
are falsy). -/
def pyStrOr (o : Option String) (d : String) : String :=
  match o with
  | some s => if s == "" then d else s
  | none => d

/-- The parsed event fields `_map_to_canonical` reads (those relevant to the
modelled columns). -/
structure ParsedEvent where
  event_type : Option String
  amount : Option Int
  currency : Option String
  psp_transaction_id : Option String
  psp_event_id : Option String
  transaction_date : Int
  deriving DecidableEq, Repr

/-- The columns of `normalized_transaction` relevant to the idempotent
insert: the unique key `(tenant, connection, psp_txn_id, event_type)`, the
fresh `transaction_id`, and the principal payload columns.  (FX, customer,
fee and source columns take no part in the uniqueness check and are
omitted.) -/
structure NTxn where
  transaction_id : String
  tenant_id : String
  brand_id : String
  entity_id : String
  psp_connection_id : String
  event_type : EventType
  transaction_date : Int
  amount_value : Int
  amount_currency : String
  psp_transaction_id : String
  reconciliation_status : String
  deriving DecidableEq, Repr

/-- `NormalizationService._map_to_canonical` (lines 167-236), restricted to
the modelled columns: `transaction_id = uuid4()` becomes the explicit
`freshId`, the event type goes through `_map_event_type` with the
empty-string default, amount defaults to 0, currency to USD, and
`psp_transaction_id` is `event.get(txn_id) or event.get(event_id, empty)`. -/
def mapToCanonical (freshId : String) (tenant conn entity brand : String)
    (ev : ParsedEvent) : NTxn :=
  { transaction_id := freshId
    tenant_id := tenant
    brand_id := brand
    entity_id := entity
    psp_connection_id := conn
    event_type := eventTypeOfRaw ev.event_type
    transaction_date := ev.transaction_date
    amount_value := ev.amount.getD 0
    amount_currency := ev.currency.getD ("USD")
    psp_transaction_id := pyStrOr ev.psp_transaction_id (ev.psp_event_id.getD (""))
    reconciliation_status := "PENDING" }

/-- `NormalizationService._store_normalized` (lines 238-336).  When a row
with the same `(tenant, connection, psp_txn_id, event_type)` exists, the
code logs and returns the in-memory `normalized` object — it does not load
the existing row — and inserts nothing; otherwise the INSERT (protected by
the matching ON CONFLICT DO NOTHING key) appends the row. -/
def storeNormalized (normalized : NTxn) (db : List NTxn) : NTxn × List NTxn :=
  match db.find? (fun r =>
      r.tenant_id == normalized.tenant_id &&
      r.psp_connection_id == normalized.psp_connection_id &&
      r.psp_transaction_id == normalized.psp_transaction_id &&
      r.event_type == normalized.event_type) with
  | some _ => (normalized, db)
  | none => (normalized, db ++ [normalized])

/-- One `normalize_event` pass over the persistence steps the claims are
about: canonical mapping with a fresh id, then the idempotent store. -/
def normalizeStore (freshId : String) (tenant conn entity brand : String)
    (ev : ParsedEvent) (db : List NTxn) : NTxn × List NTxn :=
  storeNormalized (mapToCanonical freshId tenant conn entity brand ev) db

/-! ## Webhook intake (`services/ingestion/webhook_handler.py`) -/

/-- One item of the DynamoDB idempotency table as written by
`_mark_idempotent` (lines 158-178); the TTL attribute is omitted. -/
structure IdemRow where
  idempotency_key : String
  tenant_id : String
  s3_path : String
  deriving DecidableEq, Repr

/-- `WebhookHandler._check_idempotency` (lines 141-156): the `get_item` key
is the idempotency key alone; the `tenant_id` parameter is accepted but
never used in the lookup. -/
def checkIdempotency (store : List IdemRow) (tenant_id : String) (key : String) : Bool :=
  store.any (fun r => r.idempotency_key == key)

/-- `_generate_idempotency_key` (lines 230-240). -/
def generateIdempotencyKey (psp_connection_id : String)
    (event_id event_type timestamp : String) : String :=
  psp_connection_id ++ ":" ++ event_id ++ ":" ++ event_type ++ ":" ++ timestamp

/-- The key actually used: the `X-Idempotency-Key` header when present and
non-empty (Python `or`), else the generated one. -/
def deriveIdempotencyKey (header : Option String) (generated : String) : String :=
  pyStrOr header generated

/-- The response dict of `handle_webhook`: `s3_path` is present only in the
processed response (lines 89 and 104-108). -/
structure WebhookResponse where
  status : String
  idempotency_key : String
  s3_path : Option String
  deriving DecidableEq, Repr

/-- `WebhookHandler.handle_webhook` (lines 81-108) after signature
validation, with the idempotency key already derived: on a key hit it
returns the duplicate dict (status and key only) and writes nothing; else
it archives the raw event, marks `(key, tenant, s3_path)` in the store and
returns the processed dict. -/
def handleWebhook (store : List IdemRow) (tenant_id : String)
    (idempotency_key : String) (newS3Path : String) :
    WebhookResponse × List IdemRow :=
  if checkIdempotency store tenant_id idempotency_key then
    ({ status := "duplicate", idempotency_key := idempotency_key, s3_path := none }, store)
  else
    ({ status := "processed", idempotency_key := idempotency_key, s3_path := some newS3Path },
     store ++ [{ idempotency_key := idempotency_key, tenant_id := tenant_id, s3_path := newS3Path }])

/-! ## Concrete inputs used by the theorems -/

/-- A transaction whose only candidate path is Level 3: no settlement id, no
payment id, no customer id. -/
def txnC2 : Txn :=
  { transaction_id := "t2", tenant_id := "ten1", psp_connection_id := "stripe_conn_1"
    event_type := "DEPOSIT", transaction_date := 20, amount_value := 100000
    amount_currency := "USD", psp_transaction_id := "pt2", psp_payment_id := none
    psp_settlement_id := none, psp_batch_id := none, customer_id := none
    reconciliation_status := "PENDING" }

/-- A settlement one day after `txnC2` with the exact amount and currency —
a Level-3 candidate with a one-day date shift. -/
def setlC2 : Settlement :=
  { settlement_id := "s2", tenant_id := "ten1", psp_connection_id := "stripe_conn_1"
    settlement_date := 21, settlement_batch_id := "B1", settlement_line_number := 1
    amount_value := 100000, amount_currency := "USD", psp_settlement_id := none
    psp_transaction_ids := [] }

/-- Matching state for the Level-3 scenario. -/
def stC2 : MatchState :=
  { txn := txnC2, settlements := [setlC2], matchedSettlementIds := [] }

/-- A transaction with a PSP payment reference, amount 10000. -/
def txnC3 : Txn :=
  { transaction_id := "t3", tenant_id := "ten1", psp_connection_id := "stripe_conn_1"
    event_type := "DEPOSIT", transaction_date := 10, amount_value := 10000
    amount_currency := "USD", psp_transaction_id := "pt3", psp_payment_id := some "pay3"
    psp_settlement_id := none, psp_batch_id := none, customer_id := none
    reconciliation_status := "PENDING" }

/-- A settlement referencing `pay3` whose amount differs from `txnC3` by
exactly 1.0% (100 out of 10000). -/
def setlC3 : Settlement :=
  { settlement_id := "s3", tenant_id := "ten1", psp_connection_id := "stripe_conn_1"
    settlement_date := 10, settlement_batch_id := "B1", settlement_line_number := 1
    amount_value := 9900, amount_currency := "USD", psp_settlement_id := none
    psp_transaction_ids := ["pay3"] }

/-- Matching state for the exact-1% Level-2 scenario. -/
def stC3 : MatchState :=
  { txn := txnC3, settlements := [setlC3], matchedSettlementIds := [] }

/-- A transaction with a PSP payment reference, amount 100000. -/
def txnC3w : Txn :=
  { transaction_id := "t3w", tenant_id := "ten1", psp_connection_id := "stripe_conn_1"
    event_type := "DEPOSIT", transaction_date := 10, amount_value := 100000
    amount_currency := "USD", psp_transaction_id := "pt3w", psp_payment_id := some "pay3w"
    psp_settlement_id := none, psp_batch_id := none, customer_id := none
    reconciliation_status := "PENDING" }

/-- A settlement referencing `pay3w` with a 0.5% amount drift. -/
def setlC3w : Settlement :=
  { settlement_id := "s3w", tenant_id := "ten1", psp_connection_id := "stripe_conn_1"
    settlement_date := 10, settlement_batch_id := "B1", settlement_line_number := 1
    amount_value := 99500, amount_currency := "USD", psp_settlement_id := none
    psp_transaction_ids := ["pay3w"] }

/-- Matching state for the 0.5%-drift Level-2 scenario. -/
def stC3w : MatchState :=
  { txn := txnC3w, settlements := [setlC3w], matchedSettlementIds := [] }

/-- A pending transaction with a PSP payment reference and an exact-amount
candidate settlement — first `Match` call matches at Level 2 with
confidence 95. -/
def txnC4 : Txn :=
  { transaction_id := "t4", tenant_id := "ten1", psp_connection_id := "stripe_conn_1"
    event_type := "DEPOSIT", transaction_date := 11, amount_value := 50000
    amount_currency := "USD", psp_transaction_id := "pt4", psp_payment_id := some "pay4"
    psp_settlement_id := none, psp_batch_id := none, customer_id := none
    reconciliation_status := "PENDING" }

/-- Exact-amount settlement referencing `pay4`. -/
def setlC4 : Settlement :=
  { settlement_id := "s4", tenant_id := "ten1", psp_connection_id := "stripe_conn_1"
    settlement_date := 11, settlement_batch_id := "B1", settlement_line_number := 1
    amount_value := 50000, amount_currency := "USD", psp_settlement_id := none
    psp_transaction_ids := ["pay4"] }

/-- Matching state for the idempotence scenario. -/
def stC4 : MatchState :=
  { txn := txnC4, settlements := [setlC4], matchedSettlementIds := [] }

/-- An already-MATCHED transaction state (for the early-return witness). -/
def stC4m : MatchState :=
  { txn := { txnC4 with reconciliation_status := "MATCHED" }
    settlements := [setlC4], matchedSettlementIds := ["s4"] }

/-- Transaction for the tie-break scenario: amount 100000, payment
reference `pay6`. -/
def txnC6 : Txn :=
  { transaction_id := "t6", tenant_id := "ten1", psp_connection_id := "stripe_conn_1"
    event_type := "DEPOSIT", transaction_date := 5, amount_value := 100000
    amount_currency := "USD", psp_transaction_id := "pt6", psp_payment_id := some "pay6"
    psp_settlement_id := none, psp_batch_id := none, customer_id := none
    reconciliation_status := "PENDING" }

/-- Tie-break candidate with zero amount difference, batch line 1. -/
def setlC6a : Settlement :=
  { settlement_id := "sA", tenant_id := "ten1", psp_connection_id := "stripe_conn_1"
    settlement_date := 5, settlement_batch_id := "B1", settlement_line_number := 1
    amount_value := 100000, amount_currency := "USD", psp_settlement_id := none
    psp_transaction_ids := ["pay6"] }

/-- Tie-break candidate with amount difference 50 (within the 1% Level-2
tolerance), batch line 2. -/
def setlC6b : Settlement :=
  { settlement_id := "sB", tenant_id := "ten1", psp_connection_id := "stripe_conn_1"
    settlement_date := 5, settlement_batch_id := "B1", settlement_line_number := 2
    amount_value := 99950, amount_currency := "USD", psp_settlement_id := none
    psp_transaction_ids := ["pay6"] }

/-- The same database in one return order. -/
def stC6ab : MatchState :=
  { txn := txnC6, settlements := [setlC6a, setlC6b], matchedSettlementIds := [] }

/-- The same database in the other return order. -/
def stC6ba : MatchState :=
  { txn := txnC6, settlements := [setlC6b, setlC6a], matchedSettlementIds := [] }

/-- A matched transaction with the unsupported event type
CHARGEBACK_REVERSAL. -/
def tC8 : LTxn :=
  { transaction_id := "t8", tenant_id := "ten1", entity_id := "ent1"
    psp_connection_id := "stripe_conn_1", event_type := "CHARGEBACK_REVERSAL"
    transaction_date := 7, amount_value := 100000, amount_currency := "USD"
    psp_fee := none, net_amount := none, psp_transaction_id := "pt8" }

/-- A match row for the ledger scenarios. -/
def mC8 : MatchRow :=
  { match_id := "m8", transaction_id := "t8", settlement_id := some "s8" }

/-- A deposit whose fee exceeds its gross amount, so the stored
`net_amount = amount - fee` is negative. -/
def tC1n : LTxn :=
  { transaction_id := "t1n", tenant_id := "ten1", entity_id := "ent1"
    psp_connection_id := "stripe_conn_1", event_type := "DEPOSIT"
    transaction_date := 7, amount_value := 1000, amount_currency := "USD"
    psp_fee := some 2000, net_amount := some (-1000), psp_transaction_id := "pt1n" }

/-- The spec scenario-6 deposit: amount 100000, fee 2900, net 97100. -/
def tC1w : LTxn :=
  { transaction_id := "t1w", tenant_id := "ten1", entity_id := "ent1"
    psp_connection_id := "stripe_conn_1", event_type := "DEPOSIT"
    transaction_date := 7, amount_value := 100000, amount_currency := "USD"
    psp_fee := some 2900, net_amount := some 97100, psp_transaction_id := "pt1w" }

/-- The posting group produced for `tC1w`. -/
def esC1w : List LedgerEntry :=
  (postMatchedTransaction (some tC1w) (some mC8)).toOption.getD []

/-- A parsed event for the normalization round-trip. -/
def evC5 : ParsedEvent :=
  { event_type := some "DEPOSIT", amount := some 100000, currency := some "USD"
    psp_transaction_id := some "ch_123", psp_event_id := some "evt_123"
    transaction_date := 15 }

/-- The database after the first `Normalize` call (fresh id `u1`). -/
def dbC5 : List NTxn :=
  (normalizeStore ("u1") ("ten1") ("conn1") ("ent1") ("br1") evC5 []).2

/-- The first webhook ingest: tenant A stores the shared key. -/
def pairC7a : WebhookResponse × List IdemRow :=
  handleWebhook [] ("tenantA") ("shared-key") ("raw-events/a.json")

/-- The second webhook ingest: tenant B presents an equal key. -/
def pairC7b : WebhookResponse × List IdemRow :=
  handleWebhook pairC7a.2 ("tenantB") ("shared-key") ("raw-events/b.json")

/-! ## Helper lemmas -/

/-- Each ledger entry contributes the same amount to the debit legs and to
the credit legs of its own currency, so the per-currency totals of the two
leg lists of any entry list agree. -/
theorem legsTotal_debit_eq_credit (es : List LedgerEntry) (c : String) :
    legsTotal (debitLegs es) c = legsTotal (creditLegs es) c := by
  induction es with
  | nil => rfl
  | cons e tl ih =>
      simp only [legsTotal, debitLegs, creditLegs, List.map_cons, List.sum_cons] at ih ⊢
      rw [ih]

/-- A successfully created entry carries the transaction currency. -/
theorem createEntry_ok_currency (t : LTxn) (d c : String) (a : Option Int)
    (mid ds : String) (e : LedgerEntry)
    (h : createEntry t d c a mid ds = Except.ok e) : e.currency = t.amount_currency := by
  cases a with
  | none => simp [createEntry] at h
  | some a0 =>
      simp only [createEntry, Except.ok.injEq] at h
      rw [← h]

/-- Every entry of a successful deposit posting carries the transaction
currency. -/
theorem postDeposit_currency (t : LTxn) (mid : String) (es : List LedgerEntry)
    (h : postDeposit t mid = Except.ok es) :
    ∀ e ∈ es, e.currency = t.amount_currency := by
  cases hf : t.psp_fee with
  | none => simp [postDeposit, hf] at h
  | some f =>
      cases hn : t.net_amount with
      | none => simp [postDeposit, hf, hn, createEntry] at h
      | some n =>
          by_cases hpos : 0 < f
          · simp only [postDeposit, hf, hn, createEntry, if_pos hpos, Except.ok.injEq] at h
            subst h
            intro e he
            simp only [List.mem_cons, List.mem_singleton, List.not_mem_nil, or_false] at he
            rcases he with rfl | rfl <;> rfl
          · simp only [postDeposit, hf, hn, createEntry, if_neg hpos, Except.ok.injEq] at h
            subst h
            intro e he
            simp only [List.mem_singleton] at he
            subst he
            rfl

/-- Every entry of a successful withdrawal posting carries the transaction
currency. -/
theorem postWithdrawal_currency (t : LTxn) (mid : String) (es : List LedgerEntry)
    (h : postWithdrawal t mid = Except.ok es) :
    ∀ e ∈ es, e.currency = t.amount_currency := by
  simp only [postWithdrawal, createEntry, Except.ok.injEq] at h
  subst h
  intro e he
  simp only [List.mem_singleton] at he
  subst he
  rfl

/-- Every entry of a successful refund posting carries the transaction
currency. -/
theorem postRefund_currency (t : LTxn) (mid : String) (es : List LedgerEntry)
    (h : postRefund t mid = Except.ok es) :
    ∀ e ∈ es, e.currency = t.amount_currency := by
  simp only [postRefund, createEntry, Except.ok.injEq] at h
  subst h
  intro e he
  simp only [List.mem_singleton] at he
  subst he
  rfl

/-- Every entry of a successful chargeback posting carries the transaction
currency. -/
theorem postChargeback_currency (t : LTxn) (mid : String) (es : List LedgerEntry)
    (h : postChargeback t mid = Except.ok es) :
    ∀ e ∈ es, e.currency = t.amount_currency := by
  simp only [postChargeback, createEntry, Except.ok.injEq] at h
  subst h
  intro e he
  simp only [List.mem_cons, List.mem_singleton, List.not_mem_nil, or_false] at he
  rcases he with rfl | rfl <;> rfl

/-- Every entry of a successful fee posting carries the transaction
currency. -/
theorem postFee_currency (t : LTxn) (mid : String) (es : List LedgerEntry)
    (h : postFee t mid = Except.ok es) :
    ∀ e ∈ es, e.currency = t.amount_currency := by
  simp only [postFee, createEntry, Except.ok.injEq] at h
  subst h
  intro e he
  simp only [List.mem_singleton] at he
  subst he
  rfl

/-- `ratAbs` agrees with the mathematical absolute value. -/
theorem ratAbs_eq_abs (q : ℚ) : ratAbs q = |q| := by
  unfold ratAbs
  by_cases h : q < 0
  · rw [if_pos h, abs_of_neg h]
  · rw [if_neg h, abs_of_nonneg (not_lt.mp h)]

/-- `ratAbs` is nonnegative. -/
theorem ratAbs_nonneg (q : ℚ) : 0 ≤ ratAbs q := by
  rw [ratAbs_eq_abs]
  exact abs_nonneg q

/-- `ratAbs` fixes nonnegative values. -/
theorem ratAbs_of_nonneg (q : ℚ) (h : 0 ≤ q) : ratAbs q = q := by
  rw [ratAbs_eq_abs]
  exact abs_of_nonneg h

/-- The level-2/3 percentage is nonnegative by construction. -/
theorem amountDiffPct_nonneg (t : Txn) (a : Int) : 0 ≤ amountDiffPct t a := by
  unfold amountDiffPct
  split
  · exact ratAbs_nonneg _
  · exact le_refl 0

/-- Reading back the percent stored by `_create_match` through
`match.amount_difference_percent or 0` recovers the computed percent (the
Python truthiness round-trip maps 0 to None to 0). -/
theorem createMatch_pct_getD (sid : String) (lvl : Nat) (conf : ℚ)
    (d : Option Int) (p : ℚ) :
    ((createMatch sid lvl conf d (some p)).amount_difference_percent).getD 0 = p := by
  by_cases hp : p = 0
  · simp [createMatch, hp]
  · simp [createMatch, hp]

/-! ## Claim theorems -/

/-- C1 (amended): every posting group a successful `Post` call produces
consists of entries carrying one debit account and one credit account with
the same amount — not necessarily positive — and the transaction currency,
so for every currency the debit-leg total equals the credit-leg total. -/
theorem post_group_balanced (t : LTxn) (m : MatchRow) (es : List LedgerEntry)
    (h : postMatchedTransaction (some t) (some m) = Except.ok es) :
    (∀ e ∈ es, e.currency = t.amount_currency) ∧
    (∀ c : String, legsTotal (debitLegs es) c = legsTotal (creditLegs es) c) := by
  refine ⟨?_, fun c => legsTotal_debit_eq_credit es c⟩
  rw [postMatchedTransaction] at h
  by_cases h1 : t.event_type = "DEPOSIT"
  · rw [if_pos h1] at h
    exact postDeposit_currency t m.match_id es h
  · rw [if_neg h1] at h
    by_cases h2 : t.event_type = "WITHDRAWAL"
    · rw [if_pos h2] at h
      exact postWithdrawal_currency t m.match_id es h
    · rw [if_neg h2] at h
      by_cases h3 : t.event_type = "REFUND"
      · rw [if_pos h3] at h
        exact postRefund_currency t m.match_id es h
      · rw [if_neg h3] at h
        by_cases h4 : t.event_type = "CHARGEBACK"
        · rw [if_pos h4] at h
          exact postChargeback_currency t m.match_id es h
        · rw [if_neg h4] at h
          by_cases h5 : t.event_type = "FEE"
          · rw [if_pos h5] at h
            exact postFee_currency t m.match_id es h
          · rw [if_neg h5] at h
            exact absurd h (by simp)

/-- C1 witness: the spec scenario-6 deposit (amount 100000, fee 2900, net
97100) posts a balanced group in USD. -/
theorem post_group_balanced_witness :
    (∀ e ∈ esC1w, e.currency = tC1w.amount_currency) ∧
    (∀ c : String, legsTotal (debitLegs esC1w) c = legsTotal (creditLegs esC1w) c) :=
  post_group_balanced tC1w mC8 esC1w (by rfl)

/-- C1 counterexample: a deposit whose fee exceeds the gross amount posts
successfully with a first entry of amount -1000, which is not positive; the
claim that every written entry carries a positive amount fails. -/
theorem post_positive_amount_cex :
    (postMatchedTransaction (some tC1n) (some mC8)).toOption.map
        (fun es => es.map LedgerEntry.amount) = some [-1000, 2000] ∧
    ¬ (0 < (-1000 : Int)) := by
  exact ⟨rfl, by decide⟩

/-- C8 (confirmed): posting a transaction whose event type is outside
{DEPOSIT, WITHDRAWAL, REFUND, CHARGEBACK, FEE} raises the fatal
unsupported-event-type error and commits nothing — no ledger entry and the
previous reconciliation status stands; and in general the entries and the
POSTED status update commit together or not at all. -/
theorem post_unsupported_atomic :
    (∀ (t : LTxn) (m : MatchRow) (prev : String),
      t.event_type ≠ "DEPOSIT" → t.event_type ≠ "WITHDRAWAL" →
      t.event_type ≠ "REFUND" → t.event_type ≠ "CHARGEBACK" → t.event_type ≠ "FEE" →
      postMatchedTransaction (some t) (some m) =
        Except.error ("Unsupported event type for ledger posting: " ++ t.event_type) ∧
      ledgerCommit (some t) (some m) prev = ([], prev)) ∧
    (∀ (t? : Option LTxn) (m? : Option MatchRow) (prev : String),
      (∃ es, postMatchedTransaction t? m? = Except.ok es ∧
        ledgerCommit t? m? prev = (es, "POSTED")) ∨
      ((postMatchedTransaction t? m?).isOk = false ∧
        ledgerCommit t? m? prev = ([], prev))) := by
  constructor
  · intro t m prev h1 h2 h3 h4 h5
    have hpost : postMatchedTransaction (some t) (some m) =
        Except.error ("Unsupported event type for ledger posting: " ++ t.event_type) := by
      simp [postMatchedTransaction, h1, h2, h3, h4, h5]
    exact ⟨hpost, by simp [ledgerCommit, hpost]⟩
  · intro t? m? prev
    cases hpost : postMatchedTransaction t? m? with
    | ok es => exact Or.inl ⟨es, rfl, by simp [ledgerCommit, hpost]⟩
    | error e => exact Or.inr ⟨by simp [Except.isOk, Except.toBool], by simp [ledgerCommit, hpost]⟩

/-- C8 witness: a matched CHARGEBACK_REVERSAL transaction fails fatally and
leaves the database untouched. -/
theorem post_unsupported_atomic_witness :
    postMatchedTransaction (some tC8) (some mC8) =
      Except.error ("Unsupported event type for ledger posting: " ++ tC8.event_type) ∧
    ledgerCommit (some tC8) (some mC8) ("MATCHED") = ([], "MATCHED") :=
  post_unsupported_atomic.1 tC8 mC8 ("MATCHED")
    (by decide) (by decide) (by decide) (by decide) (by decide)

/-- C9 (confirmed): for the nonnegative amounts the data model admits
(`amount.value ≥ 0`), the exception priority is a pure function of the
absolute amount with cuts at 1,000,000 / 100,000 / 10,000, and the boundary
values map to P1, P2, P3, P4 as claimed. -/
theorem exceptionPriority_abs_cuts (a : Int) (h : 0 ≤ a) :
    exceptionPriority a = specAbsPriority a ∧
    exceptionPriority 1000000 = ExceptionPriority.P1 ∧
    exceptionPriority 999999 = ExceptionPriority.P2 ∧
    exceptionPriority 10000 = ExceptionPriority.P3 ∧
    exceptionPriority 9999 = ExceptionPriority.P4 := by
  refine ⟨?_, by decide, by decide, by decide, by decide⟩
  unfold exceptionPriority specAbsPriority
  rw [abs_of_nonneg h]

/-- C9 witness at amount 12345. -/
theorem exceptionPriority_abs_cuts_witness :
    exceptionPriority 12345 = specAbsPriority 12345 ∧
    exceptionPriority 1000000 = ExceptionPriority.P1 :=
  ⟨(exceptionPriority_abs_cuts 12345 (by decide)).1,
   (exceptionPriority_abs_cuts 12345 (by decide)).2.1⟩

/-- C10 (confirmed): the normalizer event-type mapping is total with
DEPOSIT as default: any vendor string whose uppercasing is none of DEPOSIT,
WITHDRAWAL, REFUND, CHARGEBACK, SETTLEMENT — the empty and the absent
event type included — maps to DEPOSIT, and SETTLEMENT itself also maps to
DEPOSIT. -/
theorem mapEventType_default_deposit (o : Option String)
    (h : ∀ s, o = some s → pyUpper s ≠ "DEPOSIT" ∧ pyUpper s ≠ "WITHDRAWAL" ∧
      pyUpper s ≠ "REFUND" ∧ pyUpper s ≠ "CHARGEBACK" ∧ pyUpper s ≠ "SETTLEMENT") :
    eventTypeOfRaw o = EventType.DEPOSIT ∧
    eventTypeOfRaw none = EventType.DEPOSIT ∧
    eventTypeOfRaw (some ("")) = EventType.DEPOSIT ∧
    mapEventType ("SETTLEMENT") = EventType.DEPOSIT := by
  refine ⟨?_, by decide, by decide, by decide⟩
  cases o with
  | none => decide
  | some s =>
      obtain ⟨h1, h2, h3, h4, h5⟩ := h s rfl
      simp [eventTypeOfRaw, mapEventType, h1, h2, h3, h4, h5]

/-- C10 witness: the vendor type FEE is not in the mapping and lands on
DEPOSIT. -/
theorem mapEventType_default_deposit_witness :
    eventTypeOfRaw (some ("FEE")) = EventType.DEPOSIT :=
  (mapEventType_default_deposit (some ("FEE"))
    (by intro s hs; injection hs with h2; subst h2; decide)).1

/-- C2 (code bug): on a Level-3 candidate one day after the transaction the
code crashes with a `TypeError` instead of producing confidence 80 — the
fuzzy query selects `(settlement_id, amount_value, amount_currency)` and the
confidence computation subtracts the transaction date from index 2, the
currency string; the settlement date is never selected.  The spec formula
gives 80 at a one-day shift and 90 at none. -/
theorem level3_wrong_column_crash :
    matchStep stC2 = Except.error ("TypeError: unsupported operand types for subtraction") ∧
    specLevel3Confidence setlC2.settlement_date txnC2.transaction_date = 80 ∧
    specLevel3Confidence txnC2.transaction_date txnC2.transaction_date = 90 := by
  refine ⟨rfl, ?_, ?_⟩
  · show specLevel3Confidence 21 20 = 80
    unfold specLevel3Confidence
    rw [show ((21:ℤ) - 20).natAbs = 1 from rfl, Nat.cast_one]
    unfold pyMax
    rw [if_pos (by norm_num : (70:ℚ) < 90 - 10 * 1)]
    norm_num
  · show specLevel3Confidence 20 20 = 90
    unfold specLevel3Confidence
    rw [show ((20:ℤ) - 20).natAbs = 0 from rfl, Nat.cast_zero]
    unfold pyMax
    rw [if_pos (by norm_num : (70:ℚ) < 90 - 10 * 0)]
    norm_num

/-- C3 (amended): when Level 2 returns a candidate, an amount difference
strictly below 1% yields MATCHED at confidence 95 with no exception, while a
difference of 1% or more — in particular exactly 1.0% — yields
PARTIAL_MATCH at confidence 95 with an AMOUNT_MISMATCH exception. -/
theorem level2_boundary (st : MatchState) (s : Settlement)
    (hstat : st.txn.reconciliation_status ≠ "MATCHED")
    (h1 : level1Find st = none)
    (h2 : level2Find st = some s) :
    matchStep st = Except.ok (level2Outcome st s) ∧
    (amountDiffPct st.txn s.amount_value < 1 →
      (level2Outcome st s).1.status = MatchStatus.MATCHED ∧
      (level2Outcome st s).1.confidence = 95 ∧
      (level2Outcome st s).1.exception = none) ∧
    (1 ≤ amountDiffPct st.txn s.amount_value →
      (level2Outcome st s).1.status = MatchStatus.PARTIAL_MATCH ∧
      (level2Outcome st s).1.confidence = 95 ∧
      ∃ ex, (level2Outcome st s).1.exception = some ex ∧
        ex.exception_type = ExceptionType.AMOUNT_MISMATCH) := by
  have habs : ratAbs ((createMatch s.settlement_id 2 95
      (some (st.txn.amount_value - s.amount_value))
      (some (amountDiffPct st.txn s.amount_value))).amount_difference_percent.getD 0)
      = amountDiffPct st.txn s.amount_value := by
    rw [createMatch_pct_getD, ratAbs_of_nonneg _ (amountDiffPct_nonneg _ _)]
  refine ⟨?_, ?_, ?_⟩
  · simp only [matchStep, hstat, if_neg, h1, h2]
    simp [hstat]
  · intro hlt
    simp only [level2Outcome]
    rw [habs, if_pos hlt]
    exact ⟨rfl, rfl, rfl⟩
  · intro hge
    simp only [level2Outcome]
    rw [habs, if_neg (not_lt.mpr hge)]
    exact ⟨rfl, rfl, _, rfl, rfl⟩

/-- C3 witness: a 0.5% drift matches at Level 2 with status MATCHED. -/
theorem level2_boundary_witness :
    matchStep stC3w = Except.ok (level2Outcome stC3w setlC3w) ∧
    (level2Outcome stC3w setlC3w).1.status = MatchStatus.MATCHED ∧
    (level2Outcome stC3w setlC3w).1.exception = none := by
  have h := level2_boundary stC3w setlC3w (by decide) (by decide) (by decide)
  have hlt : amountDiffPct stC3w.txn setlC3w.amount_value < 1 := by decide
  exact ⟨h.1, (h.2.1 hlt).1, (h.2.1 hlt).2.2⟩

/-- C3 counterexample: a difference of exactly 1.0% of the transaction
amount (100 of 10000) produces PARTIAL_MATCH with an AMOUNT_MISMATCH
exception, not MATCHED as claimed. -/
theorem level2_exact_one_percent_cex :
    ((matchStep stC3).toOption.map (fun p =>
      (p.1.status, p.1.confidence, p.1.exception.map ExcRec.exception_type)))
      = some (MatchStatus.PARTIAL_MATCH, (95 : ℚ), some ExceptionType.AMOUNT_MISMATCH) ∧
    (txnC3.amount_value - setlC3.amount_value) * 100 = 1 * txnC3.amount_value := by
  exact ⟨rfl, rfl⟩

/-- C4 (amended): when the transaction is already MATCHED on entry,
`match_transaction` returns early with status MATCHED, confidence 100.0 and
no match object and no exception, leaving the state untouched — it does not
return the existing match, so a repeated call is not identical to a first
call that returned a match or a different confidence. -/
theorem match_already_matched_early_return (st : MatchState)
    (h : st.txn.reconciliation_status = "MATCHED") :
    matchStep st = Except.ok
      ({ status := MatchStatus.MATCHED, confidence := 100
         matchRow := none, exception := none }, st) := by
  simp [matchStep, h]

/-- C4 witness: the early return on an already-MATCHED state. -/
theorem match_already_matched_early_return_witness :
    matchStep stC4m = Except.ok
      ({ status := MatchStatus.MATCHED, confidence := 100
         matchRow := none, exception := none }, stC4m) :=
  match_already_matched_early_return stC4m (by rfl)

/-- C4 counterexample: on unchanged settlement data, the first `Match` call
returns confidence 95 with a match object; the second call on the resulting
state returns confidence 100 with no match object — the two MatchResults are
not identical. -/
theorem match_not_idempotent_cex :
    ((matchStep stC4).toOption.map (fun p => (p.1.confidence, p.1.matchRow.isSome)))
      = some ((95 : ℚ), true) ∧
    ((matchStep stC4).toOption.map (fun p =>
        (matchStep p.2).toOption.map (fun q => (q.1.confidence, q.1.matchRow.isSome))))
      = some (some ((100 : ℚ), false)) := by
  exact ⟨rfl, rfl⟩

/-- C5 (code bug): replaying the same raw event creates no second row, but
the second call returns the freshly built object with its new
`transaction_id` (`u2`) instead of loading the row written by the first call
(`u1`). -/
theorem normalize_replay_returns_fresh_id :
    dbC5.map NTxn.transaction_id = ["u1"] ∧
    (normalizeStore ("u2") ("ten1") ("conn1") ("ent1") ("br1") evC5 dbC5).2 = dbC5 ∧
    (normalizeStore ("u2") ("ten1") ("conn1") ("ent1") ("br1") evC5 dbC5).1.transaction_id = "u2" ∧
    (("u2" : String) ≠ "u1") := by
  exact ⟨rfl, rfl, rfl, by decide⟩

/-- C6 (code bug): with two settlements that both satisfy the Level-2
predicates, the chosen settlement is whichever row the database returns
first — the two return orders of the same candidate set (a permutation)
pick different settlements — while the spec tie-break (smallest absolute
amount difference first) picks `sA` under either order. -/
theorem match_pick_depends_on_row_order :
    chosenSettlement stC6ab = some ("sA") ∧
    chosenSettlement stC6ba = some ("sB") ∧
    stC6ab.settlements.Perm stC6ba.settlements ∧
    (specTieBreakPick txnC6
        (stC6ab.settlements.filter (level2Pred txnC6 stC6ab.matchedSettlementIds))).map
      Settlement.settlement_id = some ("sA") ∧
    (specTieBreakPick txnC6
        (stC6ba.settlements.filter (level2Pred txnC6 stC6ba.matchedSettlementIds))).map
      Settlement.settlement_id = some ("sA") := by
  refine ⟨rfl, rfl, ?_, rfl, rfl⟩
  exact List.Perm.swap setlC6b setlC6a []

/-- C7 (amended): after any tenant has ingested a key, a later ingest of an
equal key by any tenant — the same or a different one — is answered
`duplicate`; the duplicate response carries the idempotency key but no
archive ref, and the store is unchanged. -/
theorem webhook_dedup_global (store : List IdemRow) (t1 t2 key p1 p2 : String)
    (h : (handleWebhook store t1 key p1).1.status = "processed") :
    (handleWebhook (handleWebhook store t1 key p1).2 t2 key p2).1 =
      { status := "duplicate", idempotency_key := key, s3_path := none } ∧
    (handleWebhook (handleWebhook store t1 key p1).2 t2 key p2).2 =
      (handleWebhook store t1 key p1).2 := by
  by_cases hc : checkIdempotency store t1 key
  · simp [handleWebhook, hc] at h
  · have h2 : (handleWebhook store t1 key p1).2 =
        store ++ [{ idempotency_key := key, tenant_id := t1, s3_path := p1 }] := by
      simp [handleWebhook, hc]
    have hc2 : checkIdempotency
        (store ++ [{ idempotency_key := key, tenant_id := t1, s3_path := p1 }]) t2 key = true := by
      simp [checkIdempotency]
    rw [h2]
    simp [handleWebhook, hc2]

/-- C7 witness: tenant tB replaying tenant tA's key gets the duplicate
response without an archive ref. -/
theorem webhook_dedup_global_witness :
    (handleWebhook (handleWebhook [] ("tA") ("k1") ("p1")).2 ("tB") ("k1") ("p2")).1 =
      { status := "duplicate", idempotency_key := "k1", s3_path := none } ∧
    (handleWebhook (handleWebhook [] ("tA") ("k1") ("p1")).2 ("tB") ("k1") ("p2")).2 =
      (handleWebhook [] ("tA") ("k1") ("p1")).2 :=
  webhook_dedup_global [] ("tA") ("tB") ("k1") ("p1") ("p2") (by rfl)

/-- C7 counterexample: a key first seen from tenant A and then presented by
tenant B is reported duplicate (the claim says it is admitted as new), and
the duplicate response carries no archive ref (the claim says it carries the
stored one). -/
theorem webhook_cross_tenant_duplicate_cex :
    pairC7a.1.status = "processed" ∧
    pairC7b.1.status = "duplicate" ∧
    pairC7b.1.s3_path = none ∧
    (("tenantB" : String) ≠ "tenantA") := by
  exact ⟨rfl, rfl, rfl, by decide⟩

end PSP
